import Mathlib

/-!
Verification of the thought-diary backend against its specification.

The Python source under `backend/app` is shallowly embedded below: pure
helpers become Lean functions on `List Char` or `String`, the database
becomes an explicit list of rows, the external sentiment API becomes an
outcome parameter, and each route handler becomes a function from its
inputs to a response (and, for mutating routes, the successor state).
-/

namespace ThoughtDiary

/-!
## Character-level string primitives

`analyze_sentiment` manipulates Python `str` values with `strip`,
`startswith`, `endswith`, slicing and substring counting.  These are
embedded on `List Char` so that every operation is structural.
-/

/-- One side of Python `str.strip`: drop leading whitespace. -/
def dropWS (l : List Char) : List Char := l.dropWhile fun c => c.isWhitespace

/-- Python `str.strip`: drop leading and trailing whitespace. -/
def trimChars (l : List Char) : List Char := (dropWS (dropWS l).reverse).reverse

/-- Python `str.startswith`, on characters. -/
def isPre : List Char → List Char → Bool
  | [], _ => true
  | _ :: _, [] => false
  | a :: as, b :: bs => a == b && isPre as bs

/-- Python `str.endswith`, on characters. -/
def isSuf (pat l : List Char) : Bool := isPre pat.reverse l.reverse

/-- Python slice `l[:-n]`. -/
def dropRightChars (n : Nat) (l : List Char) : List Char := (l.reverse.drop n).reverse

/-- Number of occurrences of `pat` in a character list, as counted by
`len(re.findall(pat, s))` for a plain-text pattern: every position where
`pat` starts is counted.  The two marker patterns below cannot overlap
themselves (their single `<` is their first character), so this agrees
with the non-overlapping `findall` count. -/
def countMarker (pat : List Char) : List Char → Nat
  | [] => 0
  | c :: rest => (if isPre pat (c :: rest) then 1 else 0) + countMarker pat rest

/-- The positive sentiment marker counted by `analyze_sentiment`. -/
def posMarker : List Char := "<span class=\"positive\">".data

/-- The negative sentiment marker counted by `analyze_sentiment`. -/
def negMarker : List Char := "<span class=\"negative\">".data

/-- A triple-backtick code fence. -/
def fence3 : List Char := "```".data

/-- A triple-backtick code fence opened with the `html` language tag. -/
def fenceHtml : List Char := "```html".data

/-!
## Sentiment annotation client (`app/services/ai_service.py`)
-/

/-- Source `ai_service.py` line 108: `if analyzed_content.startswith("```html"):
analyzed_content = analyzed_content[7:]`. -/
def stripHtmlFence (l : List Char) : List Char :=
  if isPre fenceHtml l then l.drop 7 else l

/-- Source `ai_service.py` line 110: `if analyzed_content.startswith("```"):
analyzed_content = analyzed_content[3:]`. -/
def stripLeadFence (l : List Char) : List Char :=
  if isPre fence3 l then l.drop 3 else l

/-- Source `ai_service.py` line 112: `if analyzed_content.endswith("```"):
analyzed_content = analyzed_content[:-3]`. -/
def stripTrailFence (l : List Char) : List Char :=
  if isSuf fence3 l then dropRightChars 3 l else l

/-- Response post-processing inside `analyze_sentiment`
(`ai_service.py` lines 107-114): strip whitespace, drop a leading
"```html" (7 characters) if present, then a leading "```" (3 characters)
if present, then a trailing "```", and strip whitespace again. -/
def cleanResponse (l : List Char) : List Char :=
  trimChars (stripTrailFence (stripLeadFence (stripHtmlFence (trimChars l))))

/-- The tail of `analyze_sentiment`'s success path (`ai_service.py`
lines 107-124): clean the reply, then count both markers in it. -/
def postprocessReply (reply : List Char) : List Char × Nat × Nat :=
  let s := cleanResponse reply
  (s, countMarker posMarker s, countMarker negMarker s)

/-- Abstract outcome of the HTTP call made by `analyze_sentiment`.  The
first six constructors are the exception paths of the Python `try`
block; `missingField` is a 2xx response whose parsed JSON body lacks the
`choices[0].message.content` chain, making the `.get` chain fall back to
the input text; `reply` is a 2xx response carrying the model's text. -/
inductive ApiOutcome where
  | timeout
  | connectionError
  | httpError
  | requestError
  | parseError
  | emptyChoices
  | missingField
  | reply (text : List Char)
deriving DecidableEq

/-- The exception paths of the `try` block in `analyze_sentiment`:
`Timeout`, `ConnectionError`, `HTTPError` (from `raise_for_status` on a
non-2xx status), other `RequestException`, `ValueError` from
`response.json()` on a malformed body, and `IndexError` from indexing an
empty `choices` list. -/
def ApiOutcome.isException : ApiOutcome → Bool
  | .timeout | .connectionError | .httpError | .requestError
  | .parseError | .emptyChoices => true
  | .missingField | .reply _ => false

/-- Function `analyze_sentiment` (`ai_service.py` lines 16-148).  `github_token`
is the value of `os.getenv("GITHUB_TOKEN")`; Python treats both `None`
and the empty string as falsy in the `if not github_token` guard.  On an
exception the original content is returned with both counts zero; on a
2xx response the extracted reply — or, when the expected field is
absent, the original content as fallback — is post-processed. -/
def analyze_sentiment (github_token : Option (List Char)) (content : List Char)
    (outcome : ApiOutcome) : List Char × Nat × Nat :=
  match github_token with
  | none => (content, 0, 0)
  | some tok =>
    if tok.isEmpty then (content, 0, 0)
    else
      match outcome with
      | .timeout | .connectionError | .httpError | .requestError
      | .parseError | .emptyChoices => (content, 0, 0)
      | .missingField => postprocessReply content
      | .reply t => postprocessReply t

/-- Function `get_sentiment_summary` (`ai_service.py` lines 151-175). -/
def get_sentiment_summary (positive_count negative_count : Nat) : String :=
  if positive_count > negative_count then "positive"
  else if negative_count > positive_count then "negative"
  else "neutral"


/-!
## Password utilities (`app/utils/password.py`)
-/

/-- Python `re.search("[A-Z]", s)`: some character in the ASCII range A-Z. -/
def hasUpper (s : String) : Bool := s.data.any fun c => 'A' ≤ c && c ≤ 'Z'

/-- Python `re.search("[a-z]", s)`. -/
def hasLower (s : String) : Bool := s.data.any fun c => 'a' ≤ c && c ≤ 'z'

/-- Python `re.search("\\d", s)`, embedded at its ASCII core 0-9. -/
def hasDigit (s : String) : Bool := s.data.any fun c => '0' ≤ c && c ≤ '9'

/-- The fixed punctuation set of `validate_password`'s last rule. -/
def specialSet : List Char := "!@#$%^&*()_+-=[]\x7b\x7d|;:,.<>?".data

/-- Python `re.search` over the fixed punctuation class. -/
def hasSpecial (s : String) : Bool := s.data.any fun c => specialSet.contains c

/-- Function `validate_password` (`app/utils/password.py` lines 12-53).  Python's
`if not password` guard is length-zero on strings. -/
def validate_password (password : String) : Bool × String :=
  if password.length = 0 then (false, "Password is required")
  else if password.length < 8 then (false, "Password must be at least 8 characters long")
  else if !hasUpper password then
    (false, "Password must contain at least one uppercase letter")
  else if !hasLower password then
    (false, "Password must contain at least one lowercase letter")
  else if !hasDigit password then
    (false, "Password must contain at least one number")
  else if !hasSpecial password then
    (false, "Password must contain at least one special character")
  else (true, "")

/-- The five password rules named by the spec (§4.1). -/
inductive PwRule where
  | length | uppercase | lowercase | digit | symbol
deriving DecidableEq

/-- Follows the spec's words (§4.1): the first failing rule in the fixed
order length, uppercase, lowercase, digit, symbol; `none` when the
password satisfies the whole policy. -/
def firstFailingRule (p : String) : Option PwRule :=
  if p.length < 8 then some .length
  else if !hasUpper p then some .uppercase
  else if !hasLower p then some .lowercase
  else if !hasDigit p then some .digit
  else if !hasSpecial p then some .symbol
  else none

/-- The reason message `validate_password` attaches to each rule. -/
def ruleMessage : Option PwRule → String
  | some .length => "Password must be at least 8 characters long"
  | some .uppercase => "Password must contain at least one uppercase letter"
  | some .lowercase => "Password must contain at least one lowercase letter"
  | some .digit => "Password must contain at least one number"
  | some .symbol => "Password must contain at least one special character"
  | none => ""

/-!
## Input validators (`app/utils/validators.py`)
-/

/-- ASCII lowering: Python `str.lower` is Unicode-aware, but the emails
this development evaluates are ASCII, where the two coincide. -/
def toLowerAscii (s : String) : String :=
  ⟨s.data.map fun c => if 'A' ≤ c && c ≤ 'Z' then Char.ofNat (c.toNat + 32) else c⟩

/-- Function `normalize_email` (`app/utils/validators.py` lines 88-104):
empty input maps to the empty string, otherwise strip then lowercase. -/
def normalize_email (email : String) : String :=
  if email.length = 0 then "" else toLowerAscii ⟨trimChars email.data⟩

/-!
## Data model and HTTP responses
-/

/-- An HTTP response: status plus the machine code of the uniform error
envelope (`none` for success responses, which carry no code field). -/
structure Response where
  status : Nat
  code : Option String
deriving DecidableEq

/-- A row of the `thought_diaries` table (`app/models/thought_diary.py`).
Timestamps are abstract instants ordered as `Nat`. -/
structure DiaryEntry where
  id : Nat
  user_id : Nat
  content : String
  analyzed_content : String
  positive_count : Nat
  negative_count : Nat
  created_at : Nat
deriving DecidableEq

/-- A row of the `users` table, at the granularity register needs. -/
structure StoredUser where
  id : Nat
  email : String
deriving DecidableEq

/-- Query `ThoughtDiary.query.get(diary_id)`: primary-key lookup. -/
def findDiary (db : List DiaryEntry) (diary_id : Nat) : Option DiaryEntry :=
  db.find? fun d => d.id == diary_id

/-- Effect of `db.session.delete(diary)` on the row found by primary key. -/
def removeById : List DiaryEntry → Nat → List DiaryEntry
  | [], _ => []
  | e :: es, did => if e.id == did then es else e :: removeById es did

/-- In-place mutation of the row found by primary key, then commit. -/
def replaceById : List DiaryEntry → Nat → DiaryEntry → List DiaryEntry
  | [], _, _ => []
  | e :: es, did, d' => if e.id == did then d' :: es else e :: replaceById es did d'

/-!
## Diary routes (`app/blueprints/diaries/routes.py`)
-/

/-- Handler `get_diary` (`diaries/routes.py` lines 343-389): existence first,
then ownership, then the read. -/
def get_diary (db : List DiaryEntry) (current_user_id diary_id : Nat) : Response :=
  match findDiary db diary_id with
  | none => ⟨404, some "DIARY_NOT_FOUND"⟩
  | some diary =>
    if diary.user_id != current_user_id then ⟨403, some "FORBIDDEN"⟩
    else ⟨200, none⟩

/-- Handler `delete_diary` (`diaries/routes.py` lines 621-666). -/
def delete_diary (db : List DiaryEntry) (current_user_id diary_id : Nat) :
    Response × List DiaryEntry :=
  match findDiary db diary_id with
  | none => (⟨404, some "DIARY_NOT_FOUND"⟩, db)
  | some diary =>
    if diary.user_id != current_user_id then (⟨403, some "FORBIDDEN"⟩, db)
    else (⟨200, none⟩, removeById db diary_id)

/-- Validation `DiaryUpdateSchema.load` (`diaries/schemas.py`): `content` required,
1-10000 characters, not whitespace-only.  A `none` body models a missing
or non-conforming request payload. -/
def diary_update_load (body : Option String) : Option String :=
  match body with
  | none => none
  | some c =>
    if 1 ≤ c.length && c.length ≤ 10000 && !(trimChars c.data).isEmpty then some c
    else none

/-- Handler `update_diary` (`diaries/routes.py` lines 482-557): existence, then
ownership, then body validation, then re-analysis and commit. -/
def update_diary (db : List DiaryEntry) (current_user_id diary_id : Nat)
    (body : Option String) (github_token : Option (List Char)) (outcome : ApiOutcome) :
    Response × List DiaryEntry :=
  match findDiary db diary_id with
  | none => (⟨404, some "DIARY_NOT_FOUND"⟩, db)
  | some diary =>
    if diary.user_id != current_user_id then (⟨403, some "FORBIDDEN"⟩, db)
    else
      match diary_update_load body with
      | none => (⟨400, some "VALIDATION_ERROR"⟩, db)
      | some content =>
        let r := analyze_sentiment github_token content.data outcome
        (⟨200, none⟩,
          replaceById db diary_id
            { diary with
              content := content, analyzed_content := ⟨r.1⟩,
              positive_count := r.2.1, negative_count := r.2.2 })

/-- Insertion into a list kept sorted by `created_at` descending. -/
def insertDesc (d : DiaryEntry) : List DiaryEntry → List DiaryEntry
  | [] => [d]
  | e :: es => if e.created_at < d.created_at then d :: e :: es else e :: insertDesc d es

/-- Ordering `order_by(desc(ThoughtDiary.created_at))`: most recent first. -/
def sortDesc : List DiaryEntry → List DiaryEntry
  | [] => []
  | d :: ds => insertDesc d (sortDesc ds)

/-- The payload of the list endpoint's 200 response. -/
structure PageResult where
  items : List DiaryEntry
  page : Nat
  per_page : Nat
  total : Nat
  pages : Nat
deriving DecidableEq

/-- Handler `list_diaries` (`diaries/routes.py` lines 104-150).  The
`paginate(page=…, per_page=…, error_out=False)` primitive is external
(Flask-SQLAlchemy) and is modelled from its documented contract: clamp
`page` below 1 up to 1, slice the ordered rows, and report
`pages = ceil(total / per_page)`. -/
def list_diaries (db : List DiaryEntry) (current_user_id page per_page : Nat) :
    PageResult :=
  let per_page := min per_page 100
  let owned := sortDesc (db.filter fun d => d.user_id == current_user_id)
  let total := owned.length
  let page := max page 1
  { items := (owned.drop ((page - 1) * per_page)).take per_page
    page := page
    per_page := per_page
    total := total
    pages := (total + per_page - 1) / per_page }

/-- Handler `list_diaries` with the query-string defaults `page=1`, `per_page=10`
supplied by `request.args.get`. -/
def list_diaries_default (db : List DiaryEntry) (current_user_id : Nat) : PageResult :=
  list_diaries db current_user_id 1 10

/-- The payload of `get_stats`'s 200 response. -/
structure Stats where
  total_entries : Nat
  positive_entries : Nat
  negative_entries : Nat
  neutral_entries : Nat
deriving DecidableEq

/-- Handler `get_stats` (`diaries/routes.py` lines 717-754): a full scan of the
caller's rows. -/
def get_stats (db : List DiaryEntry) (current_user_id : Nat) : Stats :=
  let diaries := db.filter fun d => d.user_id == current_user_id
  { total_entries := diaries.length
    positive_entries := diaries.countP fun d => decide (d.positive_count > d.negative_count)
    negative_entries := diaries.countP fun d => decide (d.negative_count > d.positive_count)
    neutral_entries := diaries.countP fun d => decide (d.positive_count = d.negative_count) }

/-!
## Registration (`app/blueprints/auth/routes.py`)
-/

/-- Handler `register` (`auth/routes.py` lines 110-156).  `schema_ok` is the
verdict of `RegisterSchema.load` on the payload (email format and
password policy).  `commit_conflict` models the `IntegrityError` raised
at commit when a concurrent registration inserted the same email between
the pre-check and this commit; the handler rolls the transaction back —
discarding the new row — and answers exactly like the pre-check. -/
def register (users : List StoredUser) (next_id : Nat) (schema_ok : Bool)
    (raw_email : String) (commit_conflict : Bool) : Response × List StoredUser :=
  if !schema_ok then (⟨400, some "VALIDATION_ERROR"⟩, users)
  else
    let email := normalize_email raw_email
    if users.any fun u => u.email == email then
      (⟨400, some "EMAIL_EXISTS"⟩, users)
    else if commit_conflict then
      (⟨400, some "EMAIL_EXISTS"⟩, users)
    else
      (⟨201, none⟩, users ++ [⟨next_id, email⟩])

/-!
## Token issuance and revocation (`auth/routes.py`, `app/__init__.py`)
-/

/-- A bearer token at the granularity the revocation claims need:
its `jti` claim, whether its signature verifies, and its expiry. -/
structure Token where
  jti : String
  valid : Bool
  exp : Nat
deriving DecidableEq

/-- Callback `check_if_token_revoked` (`app/__init__.py` lines 81-93): the
`token_in_blocklist_loader` callback, true iff the token's `jti` is in
the process-wide `token_blacklist` set. -/
def check_if_token_revoked (token_blacklist : List String) (jti : String) : Bool :=
  token_blacklist.contains jti

/-- The possible verdicts of the framework's bearer-token check. -/
inductive AuthCheck where
  | missing | invalid | expired | revoked | ok
deriving DecidableEq

/-- Modelled from the spec: the bearer-token check the JWT framework
runs before every protected route (§4.2) — signature validity, then
expiry, then the revocation callback, the first failing condition
determining the reason.  Only the revocation callback itself
(`check_if_token_revoked`) is repository code. -/
def verify_request (token_blacklist : List String) (tok : Option Token) (now : Nat) :
    AuthCheck :=
  match tok with
  | none => .missing
  | some t =>
    if !t.valid then .invalid
    else if t.exp ≤ now then .expired
    else if check_if_token_revoked token_blacklist t.jti then .revoked
    else .ok

/-- The four 401 handlers registered by `configure_jwt_callbacks`
(`app/__init__.py` lines 95-156): each rejection reason carries its own
machine code. -/
def auth_error_response : AuthCheck → Option Response
  | .missing => some ⟨401, some "MISSING_TOKEN"⟩
  | .invalid => some ⟨401, some "INVALID_TOKEN"⟩
  | .expired => some ⟨401, some "TOKEN_EXPIRED"⟩
  | .revoked => some ⟨401, some "TOKEN_REVOKED"⟩
  | .ok => none

/-- Handler `logout` (`auth/routes.py` lines 374-387): add the presented access
token's `jti` to the blacklist and answer 200. -/
def logout (token_blacklist : List String) (jti : String) : Response × List String :=
  (⟨200, none⟩, jti :: token_blacklist)

/-- A request's effect on the blacklist: only logout mutates it. -/
inductive ServerEvent where
  | logoutEv (jti : String)
  | otherEv

/-- The blacklist after one request. -/
def applyEvent (token_blacklist : List String) : ServerEvent → List String
  | .logoutEv j => (logout token_blacklist j).2
  | .otherEv => token_blacklist

/-- The blacklist after a sequence of requests.  The only other mutation
in the repository, `token_blacklist.clear()`, is test-harness teardown
(`tests/conftest.py`), not server behaviour. -/
def runEvents (token_blacklist : List String) (evs : List ServerEvent) : List String :=
  evs.foldl applyEvent token_blacklist

/-!
## Application factory (`app/__init__.py`)
-/

/-- The `/auth` blueprint's routes (`auth/routes.py`). -/
def auth_routes : List (String × String) :=
  [("POST", "/auth/register"), ("POST", "/auth/login"), ("POST", "/auth/refresh"),
   ("POST", "/auth/logout"), ("GET", "/auth/me")]

/-- The `/diaries` blueprint's routes (`diaries/routes.py`). -/
def diaries_routes : List (String × String) :=
  [("GET", "/diaries"), ("POST", "/diaries"), ("GET", "/diaries/<int:diary_id>"),
   ("PUT", "/diaries/<int:diary_id>"), ("DELETE", "/diaries/<int:diary_id>"),
   ("GET", "/diaries/stats")]

/-- The system blueprint's routes (`system/routes.py`). -/
def system_routes : List (String × String) :=
  [("GET", "/health"), ("GET", "/version")]

/-- The routes registered on the application built by `create_app`
(`app/__init__.py` lines 22-71): the factory calls `register_blueprint`
on `auth_bp` only, so only the auth routes are reachable. -/
def create_app_routes : List (String × String) := auth_routes

/-- The list endpoint's ordering: most recently created first. -/
abbrev laterFirst (x y : DiaryEntry) : Prop := y.created_at ≤ x.created_at

/-- Fifteen rows owned by user 1, for the pagination instance of C7. -/
def db15 : List DiaryEntry :=
  (List.range 15).map fun i => ⟨i + 1, 1, "", "", 0, 0, i⟩

/-- A model reply wrapped in a code fence: an opening fence carrying
`tag` as language tag, a newline, the body, a newline, a closing
fence. -/
def fenceWrap (tag body : List Char) : List Char :=
  fence3 ++ tag ++ '\n' :: (body ++ '\n' :: fence3)

/-!
## Helper lemmas
-/

/-- Any caller-owned list splits into the three sentiment classes. -/
lemma count_three_way (l : List DiaryEntry) :
    l.length = (l.countP fun d => decide (d.positive_count > d.negative_count)) +
      (l.countP fun d => decide (d.negative_count > d.positive_count)) +
      (l.countP fun d => decide (d.positive_count = d.negative_count)) := by
  induction l with
  | nil => rfl
  | cons d ds ih =>
    simp only [List.length_cons, List.countP_cons, ih]
    by_cases h1 : d.positive_count > d.negative_count <;>
      by_cases h2 : d.negative_count > d.positive_count <;>
      by_cases h3 : d.positive_count = d.negative_count <;>
      simp [h1, h2, h3] <;> omega

/-!
## Theorems for the claims
-/

/-- Claim C2: code-bug evidence.  The spec lists the diary endpoints and
the system endpoints as reachable on the application built by the
factory, and the repository's own tests exercise them through
`create_app('testing')`; but `create_app` calls `register_blueprint` on
the auth blueprint only, so no diary route and no system route exists on
the application it builds, while every auth route does. -/
theorem C2_create_app_routes :
    (∀ r ∈ diaries_routes, r ∉ create_app_routes) ∧
    (∀ r ∈ system_routes, r ∉ create_app_routes) ∧
    (∀ r ∈ auth_routes, r ∈ create_app_routes) := by decide

/-- Claim C6: classification is `positive` iff positive > negative,
`negative` iff negative > positive, `neutral` otherwise (ties included);
and the statistics endpoint applies exactly this rule over all of the
caller's entries, so `total_entries` is the number of the caller's rows
and equals `positive_entries + negative_entries + neutral_entries`. -/
theorem C6_classification_and_stats :
    (∀ p n : Nat,
      (get_sentiment_summary p n = "positive" ↔ p > n) ∧
      (get_sentiment_summary p n = "negative" ↔ n > p) ∧
      (get_sentiment_summary p n = "neutral" ↔ p = n)) ∧
    (∀ (db : List DiaryEntry) (uid : Nat),
      (get_stats db uid).total_entries = (db.filter fun d => d.user_id == uid).length ∧
      (get_stats db uid).total_entries =
        (get_stats db uid).positive_entries + (get_stats db uid).negative_entries +
          (get_stats db uid).neutral_entries) := by
  constructor
  · intro p n
    rcases Nat.lt_trichotomy p n with h | h | h
    · have e : get_sentiment_summary p n = "negative" := by
        unfold get_sentiment_summary
        rw [if_neg (by omega), if_pos (by omega)]
      rw [e]
      exact ⟨⟨fun hx => absurd hx (by decide), fun hx => absurd hx (by omega)⟩,
        ⟨fun _ => h, fun _ => rfl⟩,
        ⟨fun hx => absurd hx (by decide), fun hx => absurd hx (by omega)⟩⟩
    · have e : get_sentiment_summary p n = "neutral" := by
        unfold get_sentiment_summary
        rw [if_neg (by omega), if_neg (by omega)]
      rw [e]
      exact ⟨⟨fun hx => absurd hx (by decide), fun hx => absurd hx (by omega)⟩,
        ⟨fun hx => absurd hx (by decide), fun hx => absurd hx (by omega)⟩,
        ⟨fun _ => h, fun _ => rfl⟩⟩
    · have e : get_sentiment_summary p n = "positive" := by
        unfold get_sentiment_summary
        rw [if_pos (by omega)]
      rw [e]
      exact ⟨⟨fun _ => h, fun _ => rfl⟩,
        ⟨fun hx => absurd hx (by decide), fun hx => absurd hx (by omega)⟩,
        ⟨fun hx => absurd hx (by decide), fun hx => absurd hx (by omega)⟩⟩
  · intro db uid
    exact ⟨rfl, count_three_way _⟩

/-- Claim C3: for two distinct users A and B and an entry owned by A,
every read, update or delete attempt by B answers 403 FORBIDDEN — never
404 — and leaves the database unchanged; and an id that resolves to no
entry answers 404 to every caller, the existence check running strictly
before the ownership check. -/
theorem C3_ownership_discipline :
    (∀ (db : List DiaryEntry) (A B diary_id : Nat) (entry : DiaryEntry),
      findDiary db diary_id = some entry → entry.user_id = A → B ≠ A →
      get_diary db B diary_id = ⟨403, some "FORBIDDEN"⟩ ∧
      delete_diary db B diary_id = (⟨403, some "FORBIDDEN"⟩, db) ∧
      (∀ (body : Option String) (tok : Option (List Char)) (oc : ApiOutcome),
        update_diary db B diary_id body tok oc = (⟨403, some "FORBIDDEN"⟩, db))) ∧
    (∀ (db : List DiaryEntry) (uid diary_id : Nat),
      findDiary db diary_id = none →
      get_diary db uid diary_id = ⟨404, some "DIARY_NOT_FOUND"⟩ ∧
      delete_diary db uid diary_id = (⟨404, some "DIARY_NOT_FOUND"⟩, db) ∧
      (∀ (body : Option String) (tok : Option (List Char)) (oc : ApiOutcome),
        update_diary db uid diary_id body tok oc = (⟨404, some "DIARY_NOT_FOUND"⟩, db))) := by
  constructor
  · intro db A B did entry hf hA hBA
    have hne : entry.user_id ≠ B := by rw [hA]; exact fun h => hBA h.symm
    refine ⟨?_, ?_, fun body tok oc => ?_⟩
    · simp [get_diary, hf, hne]
    · simp [delete_diary, hf, hne]
    · simp [update_diary, hf, hne]
  · intro db uid did hf
    exact ⟨by simp [get_diary, hf], by simp [delete_diary, hf],
      fun body tok oc => by simp [update_diary, hf]⟩

/-- Witness for C3 at a one-row database owned by user 1, with user 2 as
the caller, and at the empty database. -/
theorem C3_ownership_discipline_witness :
    get_diary [⟨1, 1, "c", "c", 0, 0, 0⟩] 2 1 = ⟨403, some "FORBIDDEN"⟩ ∧
    get_diary [] 2 1 = ⟨404, some "DIARY_NOT_FOUND"⟩ :=
  ⟨(C3_ownership_discipline.1 [⟨1, 1, "c", "c", 0, 0, 0⟩] 1 2 1 ⟨1, 1, "c", "c", 0, 0, 0⟩
      (by decide) rfl (by decide)).1,
   (C3_ownership_discipline.2 [] 2 1 (by decide)).1⟩

/-- Claim C10: in `update_diary` the existence and ownership checks run
before body validation: a non-owner gets 403 for every body, including a
missing or invalid one; a nonexistent id gets 404 for every body; and a
400 VALIDATION_ERROR is only ever produced when the entry exists and is
owned by the caller. -/
theorem C10_update_checks_before_validation :
    (∀ (db : List DiaryEntry) (uid diary_id : Nat) (entry : DiaryEntry)
      (body : Option String) (tok : Option (List Char)) (oc : ApiOutcome),
      findDiary db diary_id = some entry → entry.user_id ≠ uid →
      update_diary db uid diary_id body tok oc = (⟨403, some "FORBIDDEN"⟩, db)) ∧
    (∀ (db : List DiaryEntry) (uid diary_id : Nat) (body : Option String)
      (tok : Option (List Char)) (oc : ApiOutcome),
      findDiary db diary_id = none →
      update_diary db uid diary_id body tok oc = (⟨404, some "DIARY_NOT_FOUND"⟩, db)) ∧
    (∀ (db : List DiaryEntry) (uid diary_id : Nat) (body : Option String)
      (tok : Option (List Char)) (oc : ApiOutcome),
      (update_diary db uid diary_id body tok oc).1.code = some "VALIDATION_ERROR" →
      ∃ entry, findDiary db diary_id = some entry ∧ entry.user_id = uid) := by
  refine ⟨?_, ?_, ?_⟩
  · intro db uid did entry body tok oc hf hne
    simp [update_diary, hf, hne]
  · intro db uid did body tok oc hf
    simp [update_diary, hf]
  · intro db uid did body tok oc h
    cases hf : findDiary db did with
    | none =>
      rw [update_diary] at h
      simp only [hf] at h
      exact absurd (Option.some.inj h) (by decide)
    | some entry =>
      by_cases ho : entry.user_id != uid
      · rw [update_diary] at h
        simp only [hf, if_pos ho] at h
        exact absurd (Option.some.inj h) (by decide)
      · have he : entry.user_id = uid := by simpa using ho
        exact ⟨entry, rfl, he⟩

/-- Witness for C10: user 2 updating user 1's entry with a missing body
still gets 403, and the 404 case at the empty database. -/
theorem C10_update_checks_before_validation_witness :
    update_diary [⟨1, 1, "c", "c", 0, 0, 0⟩] 2 1 none none .timeout =
      (⟨403, some "FORBIDDEN"⟩, [⟨1, 1, "c", "c", 0, 0, 0⟩]) ∧
    update_diary [] 2 1 none none .timeout = (⟨404, some "DIARY_NOT_FOUND"⟩, []) :=
  ⟨C10_update_checks_before_validation.1 [⟨1, 1, "c", "c", 0, 0, 0⟩] 2 1
      ⟨1, 1, "c", "c", 0, 0, 0⟩ none none .timeout (by decide) (by decide),
   C10_update_checks_before_validation.2.1 [] 2 1 none none .timeout (by decide)⟩

/-- Claim C8: counterexample.  The empty password and a short non-empty
password both fail first at the length rule, yet `validate_password`
reports two different reasons — the reported reason is therefore not
determined by the first failing rule alone. -/
theorem C8_counterexample :
    firstFailingRule "" = some .length ∧ firstFailingRule "Aa1!" = some .length ∧
    (validate_password "").2 ≠ (validate_password "Aa1!").2 := by decide

/-- Claim C8 as amended: validation succeeds iff the password has at
least 8 characters and one uppercase, lowercase, digit and special
character; for every non-empty password the reported reason is the one
of the first failing rule in the order length, uppercase, lowercase,
digit, symbol; the empty password alone gets the dedicated reason
"Password is required". -/
theorem C8_password_policy :
    ∀ p : String,
      ((validate_password p).1 = true ↔
        (8 ≤ p.length ∧ hasUpper p = true ∧ hasLower p = true ∧ hasDigit p = true ∧
          hasSpecial p = true)) ∧
      (p.length ≠ 0 → (validate_password p).2 = ruleMessage (firstFailingRule p)) ∧
      (validate_password "").2 = "Password is required" := by
  intro p
  refine ⟨?_, ?_, by decide⟩
  · unfold validate_password
    split_ifs with h0 h1 h2 h3 h4 h5 <;> simp_all
  · intro hne
    unfold validate_password firstFailingRule
    rw [if_neg hne]
    split_ifs <;> rfl

/-- Witness for C8 at a password failing the digit rule. -/
theorem C8_password_policy_witness :
    (validate_password "Abcdefg!").2 = ruleMessage (firstFailingRule "Abcdefg!") :=
  (C8_password_policy "Abcdefg!").2.1 (by decide)

/-- Claim C9: a registration whose normalized email collides with an
existing user's email answers EMAIL_EXISTS and leaves the user table
unchanged, both when the pre-check detects the duplicate and when the
unique constraint fires at commit time (rollback first, then the same
EMAIL_EXISTS response, not a 500); case differences collide because
normalization lowercases. -/
theorem C9_register_duplicate_email :
    (∀ (users : List StoredUser) (next_id : Nat) (raw : String) (conflict : Bool)
      (u : StoredUser), u ∈ users → u.email = normalize_email raw →
      register users next_id true raw conflict = (⟨400, some "EMAIL_EXISTS"⟩, users)) ∧
    (∀ (users : List StoredUser) (next_id : Nat) (raw : String),
      register users next_id true raw true = (⟨400, some "EMAIL_EXISTS"⟩, users)) ∧
    normalize_email "User@X.com" = normalize_email "user@x.com" := by
  refine ⟨?_, ?_, by decide⟩
  · intro users nid raw conflict u hu he
    have hany : (users.any fun v => v.email == normalize_email raw) = true := by
      rw [List.any_eq_true]
      exact ⟨u, hu, by simp [he]⟩
    simp [register, hany]
  · intro users nid raw
    by_cases hany : (users.any fun v => v.email == normalize_email raw) = true <;>
      simp [register, hany]

/-- Witness for C9: the second registration of `User@X.com` against a
table already holding `user@x.com` answers EMAIL_EXISTS and adds no
row, and so does a commit-time conflict on a fresh email. -/
theorem C9_register_duplicate_email_witness :
    register [⟨1, "user@x.com"⟩] 2 true "User@X.com" false =
      (⟨400, some "EMAIL_EXISTS"⟩, [⟨1, "user@x.com"⟩]) ∧
    register [] 1 true "new@x.com" true = (⟨400, some "EMAIL_EXISTS"⟩, []) :=
  ⟨C9_register_duplicate_email.1 [⟨1, "user@x.com"⟩] 2 "User@X.com" false
      ⟨1, "user@x.com"⟩ (by decide) (by decide),
   C9_register_duplicate_email.2.1 [] 1 "new@x.com"⟩

/-- The blacklist only grows across requests. -/
lemma mem_runEvents_of_mem {j : String} {bl : List String} (evs : List ServerEvent)
    (h : j ∈ bl) : j ∈ runEvents bl evs := by
  induction evs generalizing bl with
  | nil => exact h
  | cons e es ih =>
    have : j ∈ applyEvent bl e := by
      cases e with
      | logoutEv j' => exact List.mem_cons_of_mem _ h
      | otherEv => exact h
    exact ih this

/-- After a logout of `j`, `j` is in the blacklist forever. -/
lemma mem_runEvents_logout {j : String} (bl : List String) (evs1 evs2 : List ServerEvent) :
    j ∈ runEvents bl (evs1 ++ .logoutEv j :: evs2) := by
  have h1 : runEvents bl (evs1 ++ .logoutEv j :: evs2) =
      runEvents (j :: runEvents bl evs1) evs2 := by
    simp [runEvents, List.foldl_append, List.foldl_cons, applyEvent, logout]
  rw [h1]
  exact mem_runEvents_of_mem evs2 (List.mem_cons_self _ _)

/-- A `jti` never logged out never enters the blacklist. -/
lemma not_mem_runEvents {j : String} {bl : List String} {evs : List ServerEvent}
    (h : j ∉ bl) (hevs : ∀ j', ServerEvent.logoutEv j' ∈ evs → j' ≠ j) :
    j ∉ runEvents bl evs := by
  induction evs generalizing bl with
  | nil => exact h
  | cons e es ih =>
    have hstep : j ∉ applyEvent bl e := by
      cases e with
      | logoutEv j' =>
        intro hmem
        rcases List.mem_cons.mp hmem with hj | hj
        · exact hevs j' (List.mem_cons_self _ _) hj.symm
        · exact h hj
      | otherEv => exact h
    exact ih hstep fun j' hj' => hevs j' (List.mem_cons_of_mem _ hj')

/-- Claim C4: once a token's `jti` has been added to the revocation set
by logout, every later authenticated request presenting that token is
rejected with the distinct TOKEN_REVOKED code while the token is
unexpired, and the token is never accepted again; a token whose `jti`
was never added keeps being accepted until its expiry. -/
theorem C4_revocation_permanent :
    (∀ (bl : List String) (evs1 evs2 : List ServerEvent) (t : Token) (now : Nat),
      t.valid = true → now < t.exp →
      verify_request (runEvents bl (evs1 ++ .logoutEv t.jti :: evs2)) (some t) now =
        .revoked ∧
      auth_error_response
          (verify_request (runEvents bl (evs1 ++ .logoutEv t.jti :: evs2)) (some t) now) =
        some ⟨401, some "TOKEN_REVOKED"⟩) ∧
    (∀ (bl : List String) (evs1 evs2 : List ServerEvent) (t : Token) (now : Nat),
      verify_request (runEvents bl (evs1 ++ .logoutEv t.jti :: evs2)) (some t) now ≠
        .ok) ∧
    (∀ (bl : List String) (evs : List ServerEvent) (t : Token) (now : Nat),
      t.valid = true → now < t.exp → t.jti ∉ bl →
      (∀ j, ServerEvent.logoutEv j ∈ evs → j ≠ t.jti) →
      verify_request (runEvents bl evs) (some t) now = .ok) := by
  refine ⟨?_, ?_, ?_⟩
  · intro bl evs1 evs2 t now hv hexp
    have hmem := mem_runEvents_logout (j := t.jti) bl evs1 evs2
    have he : verify_request (runEvents bl (evs1 ++ .logoutEv t.jti :: evs2))
        (some t) now = .revoked := by
      simp [verify_request, hv, check_if_token_revoked, hmem, Nat.not_le.mpr hexp]
    exact ⟨he, by rw [he]; rfl⟩
  · intro bl evs1 evs2 t now h
    have hmem := mem_runEvents_logout (j := t.jti) bl evs1 evs2
    rcases Bool.eq_false_or_eq_true t.valid with hv | hv
    · by_cases hexp : t.exp ≤ now
      · simp [verify_request, hv, hexp] at h
      · simp [verify_request, hv, hexp, check_if_token_revoked, hmem] at h
    · simp [verify_request, hv] at h
  · intro bl evs t now hv hexp hnot hevs
    have hmem := not_mem_runEvents hnot hevs
    simp [verify_request, hv, check_if_token_revoked, hmem, Nat.not_le.mpr hexp]

/-- Witness for C4: a concrete revoked token is refused with
TOKEN_REVOKED before expiry, and a concrete never-revoked token is
still accepted. -/
theorem C4_revocation_permanent_witness :
    verify_request (runEvents [] ([] ++ .logoutEv "j1" :: [])) (some ⟨"j1", true, 10⟩) 5 =
      .revoked ∧
    verify_request (runEvents [] [.otherEv]) (some ⟨"j2", true, 10⟩) 5 = .ok :=
  ⟨(C4_revocation_permanent.1 [] [] [] ⟨"j1", true, 10⟩ 5 rfl (by decide)).1,
   C4_revocation_permanent.2.2 [] [.otherEv] ⟨"j2", true, 10⟩ 5 rfl (by decide)
     (by decide)
     (by
       intro j hj
       simp only [List.mem_singleton] at hj
       exact absurd hj (by intro hcon; cases hcon))⟩

/-- Membership through `insertDesc`. -/
lemma mem_insertDesc {a d : DiaryEntry} {l : List DiaryEntry} :
    a ∈ insertDesc d l ↔ a = d ∨ a ∈ l := by
  induction l with
  | nil => simp [insertDesc]
  | cons e es ih =>
    simp only [insertDesc]
    split
    · simp [List.mem_cons]
    · simp only [List.mem_cons, ih]
      tauto

/-- Lemma: `insertDesc` adds exactly one element. -/
lemma length_insertDesc (d : DiaryEntry) (l : List DiaryEntry) :
    (insertDesc d l).length = l.length + 1 := by
  induction l with
  | nil => rfl
  | cons e es ih =>
    simp only [insertDesc]
    split <;> simp [ih]

/-- Sorting preserves the number of rows. -/
lemma length_sortDesc (l : List DiaryEntry) : (sortDesc l).length = l.length := by
  induction l with
  | nil => rfl
  | cons d ds ih => simp [sortDesc, length_insertDesc, ih]

/-- Sorting preserves membership. -/
lemma mem_sortDesc {a : DiaryEntry} {l : List DiaryEntry} : a ∈ sortDesc l ↔ a ∈ l := by
  induction l with
  | nil => simp [sortDesc]
  | cons d ds ih => simp [sortDesc, mem_insertDesc, ih]

/-- Lemma: `insertDesc` keeps the list sorted most-recent-first. -/
lemma pairwise_insertDesc {d : DiaryEntry} {l : List DiaryEntry}
    (h : l.Pairwise laterFirst) : (insertDesc d l).Pairwise laterFirst := by
  induction l with
  | nil => simp [insertDesc]
  | cons e es ih =>
    rw [List.pairwise_cons] at h
    obtain ⟨he, hes⟩ := h
    simp only [insertDesc]
    split
    next hlt =>
      rw [List.pairwise_cons]
      refine ⟨?_, List.pairwise_cons.mpr ⟨he, hes⟩⟩
      intro x hx
      rcases List.mem_cons.mp hx with rfl | hx
      · exact Nat.le_of_lt hlt
      · exact Nat.le_trans (he x hx) (Nat.le_of_lt hlt)
    next hge =>
      rw [List.pairwise_cons]
      refine ⟨?_, ih hes⟩
      intro x hx
      rcases mem_insertDesc.mp hx with rfl | hx
      · exact Nat.le_of_not_lt hge
      · exact he x hx

/-- The list the list endpoint slices is sorted most-recent-first. -/
lemma pairwise_sortDesc (l : List DiaryEntry) : (sortDesc l).Pairwise laterFirst := by
  induction l with
  | nil => simp [sortDesc]
  | cons d ds ih => exact pairwise_insertDesc ih

/-- Claim C7: the list endpoint returns only the caller's rows, ordered
by creation time descending, with page size capped at 100 (default 10);
and for a caller with exactly 15 rows, the default request answers
page 1, total 15, pages 2 with 10 items, and page 2 has 5 items. -/
theorem C7_list_owned_sorted_paginated :
    (∀ (db : List DiaryEntry) (uid page k : Nat),
      (∀ d ∈ (list_diaries db uid page k).items, d.user_id = uid) ∧
      ((list_diaries db uid page k).items).Pairwise laterFirst ∧
      (list_diaries db uid page k).per_page = min k 100 ∧
      (list_diaries db uid page k).total =
        (db.filter fun d => d.user_id == uid).length) ∧
    ((list_diaries_default db15 1).page = 1 ∧
      (list_diaries_default db15 1).total = 15 ∧
      (list_diaries_default db15 1).pages = 2 ∧
      (list_diaries_default db15 1).items.length = 10 ∧
      (list_diaries db15 1 2 10).items.length = 5) := by
  constructor
  · intro db uid page k
    have hsub : List.Sublist (list_diaries db uid page k).items
        (sortDesc (db.filter fun d => d.user_id == uid)) := by
      simp only [list_diaries]
      exact (List.take_sublist _ _).trans (List.drop_sublist _ _)
    refine ⟨?_, ?_, rfl, ?_⟩
    · intro d hd
      have hmem : d ∈ sortDesc (db.filter fun x => x.user_id == uid) := hsub.subset hd
      have hfil := mem_sortDesc.mp hmem
      simpa using List.of_mem_filter hfil
    · exact (pairwise_sortDesc _).sublist hsub
    · simp only [list_diaries]
      exact length_sortDesc _
  · decide

/-- Claim C1: counterexample.  When the response parses but the
expected field is absent, `analyze_sentiment` pushes the fallback input
text through post-processing, so an input that itself contains a marker
comes back with a nonzero positive count instead of `(input, 0, 0)`. -/
theorem C1_counterexample :
    analyze_sentiment (some "tok".data) "<span class=\"positive\">ok</span>".data
        .missingField =
      ("<span class=\"positive\">ok</span>".data, 1, 0) ∧
    analyze_sentiment (some "tok".data) "<span class=\"positive\">ok</span>".data
        .missingField ≠
      ("<span class=\"positive\">ok</span>".data, 0, 0) := by decide

/-- Claim C1 as amended: on a missing or empty credential and on every
exception path (timeout, connection failure, non-2xx status, other
request errors, malformed body, empty choices list) the client returns
the original unmodified input with both counts zero; when the body
parses but the expected field is absent, the original input is used as
the fallback reply and post-processed (whitespace- and fence-stripped,
markers counted), which can differ from `(input, 0, 0)`. -/
theorem C1_degrade_to_neutral :
    ∀ (content tok : List Char) (outcome : ApiOutcome),
      analyze_sentiment none content outcome = (content, 0, 0) ∧
      analyze_sentiment (some []) content outcome = (content, 0, 0) ∧
      (outcome.isException = true →
        analyze_sentiment (some tok) content outcome = (content, 0, 0)) ∧
      (tok.isEmpty = false →
        analyze_sentiment (some tok) content .missingField = postprocessReply content) := by
  intro content tok oc
  refine ⟨rfl, rfl, ?_, ?_⟩
  · intro h
    cases oc with
    | timeout | connectionError | httpError | requestError | parseError | emptyChoices =>
      cases tok <;> rfl
    | missingField => exact Bool.noConfusion h
    | reply t => exact Bool.noConfusion h
  · intro h
    simp [analyze_sentiment, h]

/-- Witness for C1 at a concrete token and input: a timeout degrades to
neutral, and a missing field routes the input through post-processing. -/
theorem C1_degrade_to_neutral_witness :
    analyze_sentiment (some "t".data) "x".data .timeout = ("x".data, 0, 0) ∧
    analyze_sentiment (some "t".data) "x".data .missingField = postprocessReply "x".data :=
  ⟨(C1_degrade_to_neutral "x".data "t".data .timeout).2.2.1 rfl,
   (C1_degrade_to_neutral "x".data "t".data .missingField).2.2.2 rfl⟩

/-!
## Fence-stripping lemmas for C5
-/

/-- Dropping leading whitespace stops at a non-whitespace head. -/
lemma dropWS_cons_not {c : Char} (l : List Char) (h : c.isWhitespace = false) :
    dropWS (c :: l) = c :: l := by
  simp [dropWS, List.dropWhile_cons, h]

/-- Dropping leading whitespace crosses a whitespace head. -/
lemma dropWS_cons_ws {c : Char} (l : List Char) (h : c.isWhitespace = true) :
    dropWS (c :: l) = dropWS l := by
  simp [dropWS, List.dropWhile_cons, h]

/-- A list with non-whitespace ends is its own strip. -/
lemma trimChars_eq_self {l : List Char} (h1 : dropWS l = l)
    (h2 : dropWS l.reverse = l.reverse) : trimChars l = l := by
  rw [trimChars, h1, h2, List.reverse_reverse]

/-- Stripping absorbs a leading whitespace character. -/
lemma trimChars_cons_ws {c : Char} (l : List Char) (h : c.isWhitespace = true) :
    trimChars (c :: l) = trimChars l := by
  simp [trimChars, dropWS_cons_ws _ h]

/-- Stripping absorbs a trailing whitespace character. -/
lemma trimChars_append_ws {c : Char} (l : List Char) (h : c.isWhitespace = true) :
    trimChars (l ++ [c]) = trimChars l := by
  have hkey : dropWS (l ++ [c]) = if (dropWS l).isEmpty then [] else dropWS l ++ [c] := by
    rw [dropWS, dropWS, List.dropWhile_append]
    split
    · simp [List.dropWhile_cons, h]
    · rfl
  by_cases he : (dropWS l).isEmpty
  · have h1 : dropWS l = [] := List.isEmpty_iff.mp he
    rw [trimChars, trimChars, hkey, if_pos he, h1]
  · rw [trimChars, trimChars, hkey, if_neg he, List.reverse_append, List.reverse_singleton]
    rw [List.singleton_append, dropWS_cons_ws _ h]

/-- Stripping absorbs the wrapping newlines. -/
lemma trimChars_wrapTail (body : List Char) :
    trimChars ('\n' :: (body ++ ['\n'])) = trimChars body := by
  rw [trimChars_cons_ws (body ++ ['\n']) (by decide), trimChars_append_ws body (by decide)]

/-- Removing the trailing fence from the wrapped remainder. -/
lemma stripTrail_wrapTail (body : List Char) :
    stripTrailFence ('\n' :: (body ++ ['\n', '`', '`', '`'])) = '\n' :: (body ++ ['\n']) := by
  have hrev : ('\n' :: (body ++ ['\n', '`', '`', '`'])).reverse =
      '`' :: '`' :: '`' :: '\n' :: (body.reverse ++ ['\n']) := by simp
  have hsuf : isSuf fence3 ('\n' :: (body ++ ['\n', '`', '`', '`'])) = true := by
    rw [isSuf, hrev]
    rfl
  rw [stripTrailFence, if_pos hsuf, dropRightChars, hrev]
  simp

/-- The code's cleanup on a reply fenced without a language tag removes
both fences and yields the stripped body. -/
lemma cleanResponse_wrap_nil (body : List Char) :
    cleanResponse ('`' :: '`' :: '`' :: '\n' :: (body ++ ['\n', '`', '`', '`'])) =
      trimChars body := by
  have hrev : ('`' :: '`' :: '`' :: '\n' :: (body ++ ['\n', '`', '`', '`'])).reverse =
      '`' :: '`' :: '`' :: '\n' :: (body.reverse ++ ['\n', '`', '`', '`']) := by simp
  have h0 : trimChars ('`' :: '`' :: '`' :: '\n' :: (body ++ ['\n', '`', '`', '`'])) =
      '`' :: '`' :: '`' :: '\n' :: (body ++ ['\n', '`', '`', '`']) := by
    apply trimChars_eq_self
    · exact dropWS_cons_not _ (by decide)
    · rw [hrev]
      exact dropWS_cons_not _ (by decide)
  have hp1 : isPre fenceHtml
      ('`' :: '`' :: '`' :: '\n' :: (body ++ ['\n', '`', '`', '`'])) = false := rfl
  have hhtml : stripHtmlFence ('`' :: '`' :: '`' :: '\n' :: (body ++ ['\n', '`', '`', '`'])) =
      '`' :: '`' :: '`' :: '\n' :: (body ++ ['\n', '`', '`', '`']) := by
    simp [stripHtmlFence, hp1]
  have hp2 : isPre fence3
      ('`' :: '`' :: '`' :: '\n' :: (body ++ ['\n', '`', '`', '`'])) = true := rfl
  have hlead : stripLeadFence ('`' :: '`' :: '`' :: '\n' :: (body ++ ['\n', '`', '`', '`'])) =
      '\n' :: (body ++ ['\n', '`', '`', '`']) := by
    simp [stripLeadFence, hp2]
  rw [cleanResponse, h0, hhtml, hlead, stripTrail_wrapTail, trimChars_wrapTail]

/-- The code's cleanup on a reply fenced with the `html` language tag
removes the fences, tag included, and yields the stripped body. -/
lemma cleanResponse_wrap_html (body : List Char) :
    cleanResponse ('`' :: '`' :: '`' :: 'h' :: 't' :: 'm' :: 'l' :: '\n' ::
      (body ++ ['\n', '`', '`', '`'])) = trimChars body := by
  have hrev : ('`' :: '`' :: '`' :: 'h' :: 't' :: 'm' :: 'l' :: '\n' ::
      (body ++ ['\n', '`', '`', '`'])).reverse =
      '`' :: '`' :: '`' :: '\n' ::
        (body.reverse ++ ['\n', 'l', 'm', 't', 'h', '`', '`', '`']) := by simp
  have h0 : trimChars ('`' :: '`' :: '`' :: 'h' :: 't' :: 'm' :: 'l' :: '\n' ::
      (body ++ ['\n', '`', '`', '`'])) =
      '`' :: '`' :: '`' :: 'h' :: 't' :: 'm' :: 'l' :: '\n' ::
        (body ++ ['\n', '`', '`', '`']) := by
    apply trimChars_eq_self
    · exact dropWS_cons_not _ (by decide)
    · rw [hrev]
      exact dropWS_cons_not _ (by decide)
  have hp1 : isPre fenceHtml ('`' :: '`' :: '`' :: 'h' :: 't' :: 'm' :: 'l' :: '\n' ::
      (body ++ ['\n', '`', '`', '`'])) = true := rfl
  have hhtml : stripHtmlFence ('`' :: '`' :: '`' :: 'h' :: 't' :: 'm' :: 'l' :: '\n' ::
      (body ++ ['\n', '`', '`', '`'])) = '\n' :: (body ++ ['\n', '`', '`', '`']) := by
    simp [stripHtmlFence, hp1]
  have hp2 : isPre fence3 ('\n' :: (body ++ ['\n', '`', '`', '`'])) = false := rfl
  have hlead : stripLeadFence ('\n' :: (body ++ ['\n', '`', '`', '`'])) =
      '\n' :: (body ++ ['\n', '`', '`', '`']) := by
    simp [stripLeadFence, hp2]
  rw [cleanResponse, h0, hhtml, hlead, stripTrail_wrapTail, trimChars_wrapTail]

/-- Equation: `fenceWrap` without a tag, in explicit form. -/
lemma fenceWrap_nil_eq (body : List Char) :
    fenceWrap [] body = '`' :: '`' :: '`' :: '\n' :: (body ++ ['\n', '`', '`', '`']) := rfl

/-- Equation: `fenceWrap` with the `html` tag, in explicit form. -/
lemma fenceWrap_html_eq (body : List Char) :
    fenceWrap "html".data body =
      '`' :: '`' :: '`' :: 'h' :: 't' :: 'm' :: 'l' :: '\n' ::
        (body ++ ['\n', '`', '`', '`']) := rfl

/-- Claim C5: counterexample.  A reply whose opening fence carries the
language tag `json` is not reduced to the unfenced text: the cleanup
strips the literal prefixes "```html" and "```" only, so the tag text
stays prefixed to the markup. -/
theorem C5_counterexample :
    cleanResponse (fenceWrap "json".data "hello".data) = "json\nhello".data ∧
    cleanResponse (fenceWrap "json".data "hello".data) ≠ trimChars "hello".data := by
  decide

/-- Claim C5 as amended: for every reply wrapped in leading and trailing
triple-backtick fences whose opening fence carries no language tag or
exactly the tag `html`, the fences are removed and the counts are
computed on the unfenced (whitespace-stripped) body.  The claim does not
extend to other opening-fence language tags: at the concrete instance
tag `json`, the cleanup keeps the tag text prefixed to the markup (the
backticks are removed and the marker count is unchanged there). -/
theorem C5_fence_stripping :
    ∀ body : List Char,
      postprocessReply (fenceWrap [] body) =
        (trimChars body, countMarker posMarker (trimChars body),
          countMarker negMarker (trimChars body)) ∧
      postprocessReply (fenceWrap "html".data body) =
        (trimChars body, countMarker posMarker (trimChars body),
          countMarker negMarker (trimChars body)) ∧
      postprocessReply (fenceWrap "json".data "<span class=\"positive\">good</span>".data) =
        ("json\n<span class=\"positive\">good</span>".data, 1, 0) := by
  intro body
  have h1 : cleanResponse (fenceWrap [] body) = trimChars body := by
    rw [fenceWrap_nil_eq]
    exact cleanResponse_wrap_nil body
  have h2 : cleanResponse (fenceWrap "html".data body) = trimChars body := by
    rw [fenceWrap_html_eq]
    exact cleanResponse_wrap_html body
  refine ⟨?_, ?_, by decide⟩
  · simp [postprocessReply, h1]
  · simp [postprocessReply, h2]

end ThoughtDiary

